import Mathlib

/-!
Verification of the sparsity-targeted L1-penalty search in the notebook
`Regression - UWashington/week-5-lasso-assignment-1-opensource.ipynb`.

The notebook's core logic is a two-phase grid search over the LASSO penalty:
a coarse scan over integer penalties recording nonzero-coefficient counts
(cells 30-33), and a fine scan over `np.linspace(154, 206, 20)` recording
validation RSS and counts (cell 36).  The LASSO solver itself is an external
library call; the notebook records its outputs, and those recorded outputs
(cells 19, 31, 32, 36) are embedded here as reference tables.  Grid
construction (`np.arange`, `np.linspace`, `np.logspace` exponents), the
hardcoded bracket constants of cell 33, and the notebook's cell structure are
translated directly from the source.  The bracket-selection and fine-selection
decision rules are performed by hand in the notebook (a human reads the
printed tables); they are modelled from the spec where indicated.
-/

/-- Embedding of `np.arange(a, b)` on nonnegative integers: the list
`[a, a+1, ..., b-1]`. -/
def arange (a b : ℕ) : List ℕ :=
  (List.range (b - a)).map (fun k => a + k)

/-- Embedding of `np.linspace(a, b, n)` for `n ≥ 2`: `n` evenly spaced
rationals from `a` to `b`, both endpoints included. -/
def linspace (a b : ℚ) (n : ℕ) : List ℚ :=
  (List.range n).map (fun k => a + (b - a) * k / ((n : ℚ) - 1))

/-- Cell 26 of the notebook: `max_nonzeros = 7`, the target sparsity. -/
def max_nonzeros : ℕ := 7

/-- Cell 33 of the notebook: `l1_penalty_min = 153`, the coarse bracket's
lower end as the notebook selects it. -/
def l1_penalty_min : ℕ := 153

/-- Cell 33 of the notebook: `l1_penalty_max = 207`, the coarse bracket's
upper end as the notebook selects it. -/
def l1_penalty_max : ℕ := 207

/-- Recorded output of cell 31: `zip(l1_penalty_values_min, nonzeros_min)`,
the (penalty, nonzero-count) pairs for the coarse scan over
`np.arange(150, 158)`. -/
def coarsePairsMin : List (ℕ × ℕ) :=
  [(150, 8), (151, 8), (152, 8), (153, 8), (154, 7), (155, 7), (156, 7), (157, 7)]

/-- Recorded output of cell 32: `zip(l1_penalty_values_max, nonzeros_max)`,
the (penalty, nonzero-count) pairs for the coarse scan over
`np.arange(201, 210)`. -/
def coarsePairsMax : List (ℕ × ℕ) :=
  [(201, 7), (202, 7), (203, 7), (204, 7), (205, 7), (206, 7), (207, 6), (208, 6), (209, 6)]

/-- The full coarse scan record, in increasing-penalty order: cell 31's pairs
followed by cell 32's pairs. -/
def refPairs : List (ℕ × ℕ) := coarsePairsMin ++ coarsePairsMax

/-- Recorded output of cell 19: the (penalty, validation RSS) pairs printed by
the coarse loop over `np.logspace(1, 7, num=13)`, penalties as printed to two
decimals and RSS at full printed precision. -/
def coarseRec : List (ℚ × ℚ) :=
  [(10, 398213327300135.0625),
   (31.62, 399041900253346.9375),
   (100, 429791604072559.5),
   (316.23, 463739831045121.375),
   (1000, 645898733633807),
   (3162.28, 1222506859427163),
   (10000, 1222506859427163),
   (31622.78, 1222506859427163),
   (100000, 1222506859427163),
   (316227.77, 1222506859427163),
   (1000000, 1222506859427163),
   (3162277.66, 1222506859427163),
   (10000000, 1222506859427163)]

/-- Recorded output of cell 36, one row per fine-phase candidate in scan
order: the printed validation RSS (at printed precision) and the printed
nonzero-coefficient count `params`. -/
def fineRecorded : List (ℚ × ℕ) :=
  [(439830405618000, 7), (440101738965000, 7), (440379199789000, 7), (440664156517000, 7),
   (440956562622000, 7), (441256316790000, 7), (441563422343000, 7), (441877890495000, 7),
   (442199721248000, 7), (442528901401000, 7), (442865477648000, 7), (443209423841000, 7),
   (443560733529000, 7), (443921675722000, 7), (444287618625000, 7), (444660886271000, 7),
   (445041483551000, 7), (445429302184000, 7), (445824308884000, 7), (446228747759000, 7)]

/-- Cell 36 of the notebook: `l1_penalty_values = np.linspace(154, 206, 20)`,
the fine-phase candidate sequence. -/
def fineCands : List ℚ := linspace 154 206 20

/-- The fine-phase table: each candidate of cell 36 paired with its recorded
(RSS, nonzero-count) row, giving (penalty, RSS, count) triples. -/
def fineTable : List (ℚ × ℚ × ℕ) := fineCands.zip fineRecorded

/-- Coarse bracket selection as the notebook's recorded choice instantiates it
(cells 31-33, matching the spec's worked example `min=153, max=207`): over
(penalty, count) pairs in increasing-penalty order, `min` is the largest
penalty whose count is strictly greater than the target and `max` is the
smallest penalty whose count is strictly less than the target; `none` when
either end is unachievable.  The notebook performs this selection by hand;
compare `bracketSpecWords`, which embeds the spec's literal non-strict
wording. -/
def bracketStrict {α : Type} (pairs : List (α × ℕ)) (t : ℕ) : Option (α × α) :=
  match pairs.reverse.find? (fun p => t < p.2), pairs.find? (fun p => p.2 < t) with
  | some pmin, some pmax => some (pmin.1, pmax.1)
  | _, _ => none

/-- The coarse bracket rule exactly as the spec's section 4.1 words state it:
`max` is the smallest penalty whose count is at most the target, `min` is the
largest penalty whose count is at least the target.  Embedded only to compare
with the notebook's recorded selection. -/
def bracketSpecWords {α : Type} (pairs : List (α × ℕ)) (t : ℕ) : Option (α × α) :=
  match pairs.reverse.find? (fun p => t ≤ p.2), pairs.find? (fun p => p.2 ≤ t) with
  | some pmin, some pmax => some (pmin.1, pmax.1)
  | _, _ => none

/-- Modelled from the spec: the fine-phase selection rule (section 4.1 step 2),
which the notebook leaves to a human reading cell 36's printout (cell 38 then
refits at the chosen penalty 154).  A stable ascending scan over
(penalty, RSS, count) rows keeps, among rows whose count equals the target,
the first row of minimal RSS — so ties resolve to the smallest penalty. -/
def selectBest (rows : List (ℚ × ℚ × ℕ)) (t : ℕ) : Option (ℚ × ℚ × ℕ) :=
  rows.foldl (fun best r =>
    if r.2.2 = t then
      match best with
      | none => some r
      | some b => if r.2.1 < b.2.1 then some r else some b
    else best) none

/-- Failure taxonomy of the spec's section 7. -/
inductive SearchError : Type
  | invalidInput : SearchError
  | unreachableSparsity : SearchError
  | solverFailure : SearchError
deriving DecidableEq

/-- A fitted model's summary, per the spec's data model: the selected penalty,
its validation RSS, and its nonzero-coefficient count (intercept included). -/
structure FitResult : Type where
  penalty : ℚ
  rss : ℚ
  nonzeros : ℕ
deriving DecidableEq

/-- Modelled from the spec: PenaltySearch (section 4.1), the two-phase search
the notebook performs across cells 30-38, with the error handling of
section 7.  The solver is an external oracle mapping a penalty to its
(validation RSS, nonzero-count).  An empty coarse candidate sequence is
InvalidInput; a failed bracket or an empty fine selection is
UnreachableSparsity. -/
def penaltySearch (solver : ℚ → ℚ × ℕ) (coarse : List ℚ) (fineNum : ℕ) (target : ℕ) :
    Except SearchError FitResult :=
  match coarse with
  | [] => .error .invalidInput
  | _ =>
    match bracketStrict (coarse.map (fun c => (c, (solver c).2))) target with
    | none => .error .unreachableSparsity
    | some (mn, mx) =>
      match selectBest ((linspace mn mx fineNum).map
          (fun c => (c, (solver c).1, (solver c).2))) target with
      | none => .error .unreachableSparsity
      | some (p, r, n) => .ok ⟨p, r, n⟩

/-- A constant solver oracle, used to exercise `penaltySearch` at concrete
inputs: every penalty yields RSS 0 and nonzero-count 0. -/
def constSolver : ℚ → ℚ × ℕ := fun _ => (0, 0)

/-- The datasets PenaltySearch reads: training and validation records, each a
feature vector with a target price. -/
structure Datasets : Type where
  training : List (List ℚ × ℚ)
  validation : List (List ℚ × ℚ)

/-- The candidate-evaluation loop of cells 19 and 36 with the dataset state
threaded explicitly: each iteration reads the current datasets to fit and
score one candidate, appends the (penalty, RSS, count) result, and passes the
datasets on unchanged — the loop bodies assign only to `model`,
`predictions`, `RSS` and `non_zeros`, never to the datasets. -/
def searchLoop (fit : Datasets → ℚ → ℚ × ℕ) (cands : List ℚ) (st : Datasets) :
    Datasets × List (ℚ × ℚ × ℕ) :=
  cands.foldl (fun acc c => (acc.1, acc.2 ++ [(c, fit acc.1 c)])) (st, [])

/-- A notebook code cell, abstracted to the global names it assigns and the
global names it reads, in reading order. -/
structure Cell : Type where
  idx : ℕ
  defines : List String
  uses : List String

/-- Top-to-bottom notebook execution over an environment of defined global
names: a cell whose used names are not all defined raises a NameError,
reported as (cell index, missing name); otherwise its assigned names join the
environment. -/
def runCells : List Cell → List String → Except (ℕ × String) (List String)
  | [], env => .ok env
  | c :: rest, env =>
    match c.uses.find? (fun n => !(env.contains n)) with
    | some n => .error (c.idx, n)
    | none => runCells rest (env ++ c.defines)

/-- The notebook's code cells in document order, each with the global names it
assigns and the global names it reads (library members and builtins under
their imported top-level names). -/
def notebookCells : List Cell :=
  [⟨2, ["np", "pd", "log", "sqrt", "linear_model"], []⟩,
   ⟨3, ["dtype_dict", "sales"], ["pd"]⟩,
   ⟨6, [], ["sales", "sqrt"]⟩,
   ⟨10, ["all_features"], []⟩,
   ⟨12, ["model_all"], ["linear_model", "sales", "all_features"]⟩,
   ⟨14, [], ["model_all"]⟩,
   ⟨17, ["testing", "training", "validation"], ["pd", "dtype_dict", "sqrt"]⟩,
   ⟨19, ["l1_list", "l1_penalty", "model", "predictions", "RSS"],
      ["np", "linear_model", "training", "all_features", "validation"]⟩,
   ⟨21, ["model10", "predictions", "RSS"],
      ["linear_model", "training", "all_features", "testing"]⟩,
   ⟨23, [], ["np", "model10"]⟩,
   ⟨26, ["max_nonzeros"], []⟩,
   ⟨28, [], ["np"]⟩,
   ⟨29, [], ["np"]⟩,
   ⟨30, ["l1_penalty_values_min", "l1_penalty_values_max", "nonzeros_min", "nonzeros_max",
         "index", "l1_penalty", "model", "non_zeros"],
      ["np", "l1_penalty_values", "linear_model", "training", "all_features"]⟩,
   ⟨31, [], ["l1_penalty_values_min", "nonzeros_min"]⟩,
   ⟨32, [], ["l1_penalty_values_max", "nonzeros_max"]⟩,
   ⟨33, ["l1_penalty_min", "l1_penalty_max"], []⟩,
   ⟨36, ["l1_penalty_values", "l1_penalty", "model", "predictions", "RSS", "non_zeros"],
      ["np", "linear_model", "training", "all_features", "validation"]⟩,
   ⟨38, ["model154"], ["linear_model", "training", "all_features"]⟩,
   ⟨39, ["all_features"], []⟩]

/-- A fit oracle used to exercise the loop embeddings at concrete inputs:
every fit yields RSS 0 and nonzero-count 0 whatever the datasets. -/
def constFit : Datasets → ℚ → ℚ × ℕ := fun _ _ => (0, 0)

/-- An empty pair of datasets, used to exercise `searchLoop` at a concrete
input. -/
def emptyData : Datasets := ⟨[], []⟩

theorem find?_min_of_pairwise {α : Type} {R : α → α → Prop} {p : α → Bool} :
    ∀ {l : List α} {a : α}, l.Pairwise R → l.find? p = some a →
      ∀ b ∈ l, p b → a = b ∨ R a b := by
  intro l
  induction l with
  | nil => intro a _ h; simp [List.find?] at h
  | cons x xs ih =>
    intro a hp hf b hb hpb
    rw [List.pairwise_cons] at hp
    by_cases hx : p x
    · rw [List.find?_cons_of_pos xs hx] at hf
      cases hf
      rcases List.mem_cons.mp hb with hb | hb
      · exact Or.inl hb.symm
      · exact Or.inr (hp.1 b hb)
    · rw [List.find?_cons_of_neg xs hx] at hf
      rcases List.mem_cons.mp hb with hb | hb
      · rw [hb] at hpb; exact absurd hpb hx
      · exact ih hp.2 hf b hb hpb

theorem bracket_strict_some (pairs : List (ℕ × ℕ)) (t mn mx : ℕ)
    (hsort : pairs.Pairwise (fun p q => p.1 < q.1))
    (h : bracketStrict pairs t = some (mn, mx)) :
    (∃ c, (mn, c) ∈ pairs ∧ t < c) ∧ (∀ p ∈ pairs, t < p.2 → p.1 ≤ mn) ∧
    (∃ c, (mx, c) ∈ pairs ∧ c < t) ∧ (∀ p ∈ pairs, p.2 < t → mx ≤ p.1) := by
  unfold bracketStrict at h
  cases hf1 : pairs.reverse.find? (fun p => decide (t < p.2)) with
  | none => rw [hf1] at h; simp at h
  | some pmin =>
    cases hf2 : pairs.find? (fun p => decide (p.2 < t)) with
    | none => rw [hf1, hf2] at h; simp at h
    | some pmax =>
      rw [hf1, hf2] at h
      simp only [Option.some.injEq, Prod.mk.injEq] at h
      obtain ⟨h1, h2⟩ := h
      subst h1
      subst h2
      have hmem1 : pmin ∈ pairs := List.mem_reverse.mp (List.mem_of_find?_eq_some hf1)
      have hlt1 : t < pmin.2 := by simpa using List.find?_some hf1
      have hmem2 : pmax ∈ pairs := List.mem_of_find?_eq_some hf2
      have hlt2 : pmax.2 < t := by simpa using List.find?_some hf2
      have hsortrev : pairs.reverse.Pairwise (fun p q : ℕ × ℕ => q.1 < p.1) :=
        List.pairwise_reverse.mpr hsort
      refine ⟨⟨pmin.2, ?_, hlt1⟩, ?_, ⟨pmax.2, ?_, hlt2⟩, ?_⟩
      · simpa using hmem1
      · intro q hq hql
        have := find?_min_of_pairwise hsortrev hf1 q (List.mem_reverse.mpr hq) (by simpa using hql)
        rcases this with he | hlt
        · rw [← he]
        · exact le_of_lt hlt
      · simpa using hmem2
      · intro q hq hql
        have := find?_min_of_pairwise hsort hf2 q hq (by simpa using hql)
        rcases this with he | hlt
        · rw [← he]
        · exact le_of_lt hlt

theorem bracket_strict_none (pairs : List (ℕ × ℕ)) (t : ℕ) :
    bracketStrict pairs t = none ↔
      (∀ p ∈ pairs, p.2 ≤ t) ∨ (∀ p ∈ pairs, t ≤ p.2) := by
  unfold bracketStrict
  cases hf1 : pairs.reverse.find? (fun p => decide (t < p.2)) with
  | none =>
    simp only [true_iff]
    left
    intro q hq
    have := List.find?_eq_none.mp hf1 q (List.mem_reverse.mpr hq)
    simpa using this
  | some pmin =>
    cases hf2 : pairs.find? (fun p => decide (p.2 < t)) with
    | none =>
      simp only [true_iff]
      right
      intro q hq
      have := List.find?_eq_none.mp hf2 q hq
      simpa using this
    | some pmax =>
      simp only [reduceCtorEq, false_iff]
      push_neg
      constructor
      · refine ⟨pmin, List.mem_reverse.mp (List.mem_of_find?_eq_some hf1), ?_⟩
        have : t < pmin.2 := by simpa using List.find?_some hf1
        omega
      · refine ⟨pmax, List.mem_of_find?_eq_some hf2, ?_⟩
        have : pmax.2 < t := by simpa using List.find?_some hf2
        omega

/-- C1: for the reference housing data with target sparsity 7, the fine phase
evaluates 20 evenly spaced penalty candidates from 154 to 206 (step 52/19) and
the selection rule — among candidates whose nonzero-coefficient count equals
the target 7, minimal validation RSS, ties to the smallest penalty — returns
penalty 154 with the recorded validation RSS 4.39830405618e14, which is within
5e10 of 4.398e14, and exactly 7 nonzero coefficients; that RSS is minimal over
all count-7 rows of the recorded fine table and is attained only at
penalty 154. -/
theorem fine_phase_selects_penalty_154 :
    fineCands.length = 20 ∧
    fineCands.head? = some 154 ∧
    fineCands.getLast? = some 206 ∧
    List.Chain' (fun a b : ℚ => b - a = 52 / 19) fineCands ∧
    selectBest fineTable max_nonzeros = some (154, 439830405618000, 7) ∧
    (∀ r ∈ fineTable, r.2.2 = max_nonzeros → 439830405618000 ≤ r.2.1) ∧
    (∀ r ∈ fineTable, r.2.2 = max_nonzeros → r.2.1 = 439830405618000 → r.1 = 154) ∧
    (439830405618000 : ℚ) - 4.398e14 ≤ 5e10 ∧ (4.398e14 : ℚ) ≤ 439830405618000 := by
  refine ⟨by decide, ?_, ?_, ?_, ?_, ?_, ?_, by norm_num⟩
  · norm_num [fineCands, linspace, List.range_succ]
  · norm_num [fineCands, linspace, List.range_succ]
  · norm_num [fineCands, linspace, List.range_succ]
  · norm_num [selectBest, fineTable, fineCands, linspace, fineRecorded, List.range_succ,
      max_nonzeros, List.foldl]
  · norm_num [fineTable, fineCands, linspace, fineRecorded, List.range_succ, max_nonzeros]
  · norm_num [fineTable, fineCands, linspace, fineRecorded, List.range_succ, max_nonzeros]

/-- C2 (counterexample): the coarse bracket rule stated with non-strict
comparisons — `max` the smallest penalty with count ≤ target, `min` the
largest with count ≥ target — applied to the recorded coarse scan with
target 7 yields (206, 154), not the bracket (153, 207) the notebook's coarse
phase selects in cell 33. -/
theorem bracket_spec_words_contradict_recorded_selection :
    bracketSpecWords refPairs max_nonzeros = some (206, 154) ∧
    bracketSpecWords refPairs max_nonzeros ≠ some (l1_penalty_min, l1_penalty_max) ∧
    (l1_penalty_min, l1_penalty_max) = (153, 207) := by decide

/-- C2 (amended): for every strictly increasing coarse candidate sequence with
a target sparsity, the coarse phase's bracket is determined by the strict
rule: `min` is the largest penalty whose nonzero-coefficient count is strictly
greater than the target, and `max` is the smallest penalty whose count is
strictly less than the target; the bracket is unachievable exactly when no
candidate has a count strictly above the target or none has a count strictly
below it, in which case the search fails with UnreachableSparsity; on the
recorded coarse scan with target 7 the rule yields exactly the notebook's
selected bracket (153, 207). -/
theorem bracket_strict_rule_characterization :
    (∀ (pairs : List (ℕ × ℕ)) (t mn mx : ℕ),
        pairs.Pairwise (fun p q => p.1 < q.1) →
        bracketStrict pairs t = some (mn, mx) →
        (∃ c, (mn, c) ∈ pairs ∧ t < c) ∧ (∀ p ∈ pairs, t < p.2 → p.1 ≤ mn) ∧
        (∃ c, (mx, c) ∈ pairs ∧ c < t) ∧ (∀ p ∈ pairs, p.2 < t → mx ≤ p.1)) ∧
    (∀ (pairs : List (ℕ × ℕ)) (t : ℕ),
        bracketStrict pairs t = none ↔
          (∀ p ∈ pairs, p.2 ≤ t) ∨ (∀ p ∈ pairs, t ≤ p.2)) ∧
    (∀ (solver : ℚ → ℚ × ℕ) (coarse : List ℚ) (n t : ℕ),
        coarse ≠ [] →
        bracketStrict (coarse.map (fun c => (c, (solver c).2))) t = none →
        penaltySearch solver coarse n t = .error .unreachableSparsity) ∧
    bracketStrict refPairs max_nonzeros = some (l1_penalty_min, l1_penalty_max) := by
  refine ⟨fun pairs t mn mx hs h => bracket_strict_some pairs t mn mx hs h,
    fun pairs t => bracket_strict_none pairs t, ?_, by decide⟩
  intro solver coarse n t hne hb
  match coarse, hne with
  | c :: cs, _ =>
    simp only [penaltySearch]
    rw [hb]

/-- Witness for C2's amended theorem: instantiating the strict-rule
characterization on the recorded coarse scan with target 7 and bracket
(153, 207), and the UnreachableSparsity branch on a one-candidate sequence
whose solver reports count 0. -/
theorem bracket_strict_rule_characterization_witness :
    ((∃ c, (153, c) ∈ refPairs ∧ 7 < c) ∧ (∀ p ∈ refPairs, 7 < p.2 → p.1 ≤ 153) ∧
     (∃ c, (207, c) ∈ refPairs ∧ c < 7) ∧ (∀ p ∈ refPairs, p.2 < 7 → 207 ≤ p.1)) ∧
    penaltySearch constSolver [1] 20 7 = .error .unreachableSparsity :=
  ⟨bracket_strict_rule_characterization.1 refPairs 7 153 207 (by decide) (by decide),
   bracket_strict_rule_characterization.2.2.1 constSolver [1] 20 7 (by decide) (by decide)⟩

/-- C3: on the reference data with target sparsity 7, the coarse scan over the
integer penalties 150-157 and 201-209 (the ranges `np.arange(150, 158)` and
`np.arange(201, 210)`) records nonzero-coefficient count 8 for penalties
150-153, 7 for 154-157 and 201-206, and 6 for 207-209, and the selected
bracket of cell 33 is min = 153 and max = 207, which is exactly what the
strict bracket rule yields on the recorded pairs. -/
theorem coarse_scan_counts_and_bracket :
    coarsePairsMin.map Prod.fst = arange 150 158 ∧
    coarsePairsMax.map Prod.fst = arange 201 210 ∧
    (∀ p ∈ refPairs, p.2 = if p.1 ≤ 153 then 8 else if p.1 ≤ 206 then 7 else 6) ∧
    (l1_penalty_min, l1_penalty_max) = (153, 207) ∧
    bracketStrict refPairs max_nonzeros = some (l1_penalty_min, l1_penalty_max) := by
  decide

/-- C4: the coarse penalty exploration of cell 19 runs over
`np.logspace(1, 7, num=13)` — 13 candidates whose base-10 exponents are
evenly spaced from 1 to 7 in steps of 1/2 — and its recorded run lists one
validation RSS per candidate, 13 in all; the first candidate, penalty 10,
yields the recorded RSS 398213327300135.0625, which is within 5e10 of
3.982e14. -/
theorem coarse_logspace_rss_reference :
    (linspace 1 7 13).length = 13 ∧
    (linspace 1 7 13).head? = some 1 ∧
    (linspace 1 7 13).getLast? = some 7 ∧
    List.Chain' (fun a b : ℚ => b - a = 1 / 2) (linspace 1 7 13) ∧
    coarseRec.length = 13 ∧
    coarseRec.head? = some (10, 398213327300135.0625) ∧
    (398213327300135.0625 : ℚ) - 3.982e14 ≤ 5e10 ∧
    (3.982e14 : ℚ) ≤ 398213327300135.0625 := by
  refine ⟨by decide, ?_, ?_, ?_, by decide, ?_, by norm_num⟩
  · norm_num [linspace, List.range_succ]
  · norm_num [linspace, List.range_succ]
  · norm_num [linspace, List.range_succ]
  · norm_num [coarseRec]

/-- C5: whenever the strict bracket rule selects a bracket (min, max) from a
scanned (penalty, count) list, the recorded counts straddle the target:
count(min) ≥ target ≥ count(max); and across the notebook's scanned coarse
candidates the recorded nonzero-coefficient count is non-increasing as the
penalty increases. -/
theorem bracket_counts_straddle_target_and_monotone :
    (∀ (pairs : List (ℕ × ℕ)) (t mn mx : ℕ),
        bracketStrict pairs t = some (mn, mx) →
        ∃ cmn cmx, (mn, cmn) ∈ pairs ∧ (mx, cmx) ∈ pairs ∧ t ≤ cmn ∧ cmx ≤ t) ∧
    List.Chain' (fun p q : ℕ × ℕ => q.2 ≤ p.2) refPairs := by
  constructor
  · intro pairs t mn mx h
    unfold bracketStrict at h
    cases hf1 : pairs.reverse.find? (fun p => decide (t < p.2)) with
    | none => rw [hf1] at h; simp at h
    | some pmin =>
      cases hf2 : pairs.find? (fun p => decide (p.2 < t)) with
      | none => rw [hf1, hf2] at h; simp at h
      | some pmax =>
        rw [hf1, hf2] at h
        simp only [Option.some.injEq, Prod.mk.injEq] at h
        obtain ⟨h1, h2⟩ := h
        subst h1
        subst h2
        have hlt1 : t < pmin.2 := by simpa using List.find?_some hf1
        have hlt2 : pmax.2 < t := by simpa using List.find?_some hf2
        exact ⟨pmin.2, pmax.2,
          by simpa using List.mem_reverse.mp (List.mem_of_find?_eq_some hf1),
          by simpa using List.mem_of_find?_eq_some hf2,
          le_of_lt hlt1, le_of_lt hlt2⟩
  · simp [refPairs, coarsePairsMin, coarsePairsMax, List.chain'_cons]

/-- Witness for C5's theorem: instantiating it on the recorded coarse scan
with target 7 and the notebook's bracket (153, 207). -/
theorem bracket_counts_straddle_target_and_monotone_witness :
    ∃ cmn cmx, (153, cmn) ∈ refPairs ∧ (207, cmx) ∈ refPairs ∧ 7 ≤ cmn ∧ cmx ≤ 7 :=
  bracket_counts_straddle_target_and_monotone.1 refPairs 7 153 207 (by decide)

/-- C6 (counterexample): the fine-phase candidate sequence of cell 36,
`np.linspace(154, 206, 20)`, starts at 154 and ends at 206, while the coarse
bracket of cell 33 is min = 153 and max = 207 — so its first element is not
the bracket's `min` and its last element is not the bracket's `max`. -/
theorem fine_endpoints_differ_from_bracket :
    fineCands.head? = some 154 ∧
    fineCands.getLast? = some 206 ∧
    l1_penalty_min = 153 ∧
    l1_penalty_max = 207 ∧
    fineCands.head? ≠ some ((153 : ℚ)) ∧
    fineCands.getLast? ≠ some ((207 : ℚ)) := by
  refine ⟨?_, ?_, rfl, rfl, ?_, ?_⟩ <;> norm_num [fineCands, linspace, List.range_succ]

/-- C6 (amended): the fine-phase candidate sequence is an ordered, evenly
spaced 20-point sequence lying strictly inside the coarse bracket: its first
element is the bracket's min + 1 = 154 and its last element is the bracket's
max - 1 = 206. -/
theorem fine_endpoints_strictly_inside_bracket :
    fineCands.length = 20 ∧
    List.Chain' (fun a b : ℚ => b - a = 52 / 19) fineCands ∧
    fineCands.head? = some ((l1_penalty_min : ℚ) + 1) ∧
    fineCands.getLast? = some ((l1_penalty_max : ℚ) - 1) ∧
    (l1_penalty_min : ℚ) < 154 ∧ (206 : ℚ) < (l1_penalty_max : ℚ) := by
  refine ⟨by decide, ?_, ?_, ?_, ?_, ?_⟩ <;>
    norm_num [fineCands, linspace, List.range_succ, l1_penalty_min, l1_penalty_max]

/-- C7: invoking PenaltySearch with an empty candidate sequence fails with an
InvalidInput error, for every solver oracle, fine-phase size, and target. -/
theorem empty_candidates_invalid_input (solver : ℚ → ℚ × ℕ) (fineNum target : ℕ) :
    penaltySearch solver [] fineNum target = .error .invalidInput := rfl

/-- Witness for C7's theorem: the empty candidate sequence with the constant
solver, fine-phase size 20, and target 7. -/
theorem empty_candidates_invalid_input_witness :
    penaltySearch constSolver [] 20 7 = .error .invalidInput :=
  empty_candidates_invalid_input constSolver 20 7

/-- C8: the candidate-evaluation loop threads the training and validation
datasets through unchanged — for every fit oracle, candidate list, and
initial datasets, the dataset component of `searchLoop`'s result is exactly
the input datasets; the loop's only effect is the list of per-candidate
results. -/
theorem search_preserves_datasets (fit : Datasets → ℚ → ℚ × ℕ) (cands : List ℚ)
    (st : Datasets) : (searchLoop fit cands st).1 = st := by
  have h : ∀ (l : List ℚ) (acc : Datasets × List (ℚ × ℚ × ℕ)),
      (l.foldl (fun a c => (a.1, a.2 ++ [(c, fit a.1 c)])) acc).1 = acc.1 := by
    intro l
    induction l with
    | nil => intro acc; rfl
    | cons x xs ih => intro acc; exact ih _
  exact h cands (st, [])

/-- Witness for C8's theorem: the loop over one candidate with the constant
fit oracle leaves the empty datasets unchanged. -/
theorem search_preserves_datasets_witness :
    (searchLoop constFit [1] emptyData).1 = emptyData :=
  search_preserves_datasets constFit [1] emptyData

/-- C9: PenaltySearch is deterministic — two invocations with equal solver
oracles, equal candidate sequences, equal fine-phase sizes, and equal target
sparsities produce identical output. -/
theorem penalty_search_deterministic (s₁ s₂ : ℚ → ℚ × ℕ) (c₁ c₂ : List ℚ)
    (n₁ n₂ t₁ t₂ : ℕ) (hs : s₁ = s₂) (hc : c₁ = c₂) (hn : n₁ = n₂) (ht : t₁ = t₂) :
    penaltySearch s₁ c₁ n₁ t₁ = penaltySearch s₂ c₂ n₂ t₂ := by
  subst hs
  subst hc
  subst hn
  subst ht
  rfl

/-- Witness for C9's theorem: two identical invocations on the constant
solver, candidate list [1], fine-phase size 20, and target 7. -/
theorem penalty_search_deterministic_witness :
    penaltySearch constSolver [1] 20 7 = penaltySearch constSolver [1] 20 7 :=
  penalty_search_deterministic constSolver constSolver [1] [1] 20 20 7 7 rfl rfl rfl rfl

/-- C10: under top-to-bottom execution of the notebook's cells, cell 30 — the
coarse phase, which sizes its result buffers `nonzeros_min` and `nonzeros_max`
by `len(l1_penalty_values)` — reads the name `l1_penalty_values` before any
cell has assigned it (the only assignment is in cell 36, the fine phase,
which comes later in the strictly increasing cell order), so the run raises a
NameError at cell 30 and the coarse phase cannot run to completion; moreover,
even with that name bound, the buffer length 20 matches neither scanned
candidate range, of 8 and 9 elements. -/
theorem coarse_buffers_use_undefined_name :
    runCells notebookCells [] = .error (30, "l1_penalty_values") ∧
    (∀ c ∈ notebookCells, "l1_penalty_values" ∈ c.defines → c.idx = 36) ∧
    List.Chain' (fun a b : ℕ => a < b) (notebookCells.map Cell.idx) ∧
    (30 : ℕ) < 36 ∧
    (linspace 154 206 20).length = 20 ∧
    (arange 150 158).length = 8 ∧
    (arange 201 210).length = 9 ∧
    (20 : ℕ) ≠ 8 ∧ (20 : ℕ) ≠ 9 := by
  refine ⟨rfl, by decide, ?_, by decide, by decide, by decide, by decide, by decide, by decide⟩
  simp [notebookCells, List.chain'_cons]
